import Mathlib

/-!
Shallow embedding of the e-commerce dashboard core (src/app.py):
the synthetic data generator, the event/date filter, and the
aggregation pipeline (funnel counts, unique-user conversion rates,
cart abandonment, average order value, monthly purchase trend).

Modelling conventions:
* machine integers are `Nat` with explicit `% 2 ^ 32` where the PRNG
  state wraps;
* `date` is the ordinal day inside 2024 (0 .. 365, the year is a leap
  year with 366 days), `month` is the derived calendar-month index
  (0 .. 11) obtained from the 2024 month lengths — this mirrors
  `df['date'].dt.to_period('M')`, where for "YYYY-MM" keys lexical and
  calendar order coincide;
* `price` is an exact rational (the source rounds to 2 decimals, so
  prices are integer hundredths);
* pandas `groupby` sorts its group keys ascending and omits groups that
  have no rows; both behaviours are embedded explicitly;
* Python's fallible positional indexing (`date_range[0]`,
  `date_range[1]`) is embedded with `Option`: `none` models the
  `IndexError` fault.
-/

namespace Dashboard

/-- The three event types of the generator
(`['view','add_to_cart','purchase']` in `generate_data`). -/
inductive Ev where
  | view
  | add_to_cart
  | purchase
deriving DecidableEq, Repr

/-- One row of the dataframe built by `generate_data`: `event_id`,
`user_id`, `date` (ordinal day in 2024), `event`, `price`, and the
derived `month` column. -/
structure Record where
  event_id : ℕ
  user_id : ℕ
  date : ℕ
  event : Ev
  price : ℚ
  month : ℕ
deriving DecidableEq, Repr

/-- The boolean `mask` of app.py lines 43-47:
`df['event'].isin(events) & (df['date'] >= start) & (df['date'] <= end)`. -/
def mask (events : List Ev) (dstart dend : ℕ) (r : Record) : Bool :=
  events.contains r.event && decide (dstart ≤ r.date) && decide (r.date ≤ dend)

/-- `view = df[mask]` (app.py line 48): the rows of `df` satisfying the
mask, in their original order. -/
def filterView (df : List Record) (events : List Ev) (dstart dend : ℕ) : List Record :=
  df.filter (mask events dstart dend)

/-- Number of rows of `v` whose event is `e` (the `count=('event','count')`
aggregation of line 53, per group). -/
def countEvent (v : List Record) (e : Ev) : ℕ :=
  (v.filter (fun r => r.event == e)).length

/-- The three event-name strings in the ascending (alphabetical) order
pandas `groupby('event')` uses for its group keys:
"add_to_cart" < "purchase" < "view". -/
def eventKeysSorted : List Ev := [.add_to_cart, .purchase, .view]

/-- `funnel = view.groupby('event', as_index=False).agg(count=('event','count'))`
(app.py line 53): one `(event, count)` row per event value PRESENT in
`view`, keys in pandas' sorted (alphabetical) order; absent event types
produce no row. -/
def funnel (v : List Record) : List (Ev × ℕ) :=
  (eventKeysSorted.filter (fun e => v.any (fun r => r.event == e))).map
    (fun e => (e, countEvent v e))

/-- The funnel as the spec's words describe it, for comparison with
`funnel`: always the three canonical types in the fixed order
[view, add_to_cart, purchase], zero counts present explicitly. -/
def funnelSpec (v : List Record) : List (Ev × ℕ) :=
  [(.view, countEvent v .view), (.add_to_cart, countEvent v .add_to_cart),
   (.purchase, countEvent v .purchase)]

/-- `Series.nunique()`: the number of distinct values in a column. -/
def nunique (l : List ℕ) : ℕ := l.dedup.length

/-- The `user_id` column of the rows of `v` with event `e`
(`view[view['event']==e]['user_id']`). -/
def usersOf (v : List Record) (e : Ev) : List ℕ :=
  (v.filter (fun r => r.event == e)).map Record.user_id

/-- `unique_views = view[view['event']=='view']['user_id'].nunique()` (line 56). -/
def unique_views (v : List Record) : ℕ := nunique (usersOf v .view)

/-- `unique_adds = view[view['event']=='add_to_cart']['user_id'].nunique()` (line 57). -/
def unique_adds (v : List Record) : ℕ := nunique (usersOf v .add_to_cart)

/-- `unique_purchases = view[view['event']=='purchase']['user_id'].nunique()` (line 58). -/
def unique_purchases (v : List Record) : ℕ := nunique (usersOf v .purchase)

/-- `conv_view_to_add = unique_adds / unique_views if unique_views else 0`
(line 59; Python truthiness: the guard is `unique_views ≠ 0`). -/
def conv_view_to_add (v : List Record) : ℚ :=
  if unique_views v = 0 then 0 else (unique_adds v : ℚ) / (unique_views v : ℚ)

/-- `conv_add_to_purchase = unique_purchases / unique_adds if unique_adds else 0`
(line 60). -/
def conv_add_to_purchase (v : List Record) : ℚ :=
  if unique_adds v = 0 then 0 else (unique_purchases v : ℚ) / (unique_adds v : ℚ)

/-- `cart_abandonment_rate = 1 - conv_add_to_purchase` (line 79). -/
def cart_abandonment_rate (v : List Record) : ℚ := 1 - conv_add_to_purchase v

/-- The `price` column of the purchase rows of `v`
(`view[view['event']=='purchase']['price']`). -/
def purchasePrices (v : List Record) : List ℚ :=
  (v.filter (fun r => r.event == Ev.purchase)).map Record.price

/-- `avg_order_value = view[view['event']=='purchase']['price'].mean() if purchases else 0`
(line 80; the guard `purchases` is the unique-purchaser count of line 58/78). -/
def avg_order_value (v : List Record) : ℚ :=
  if unique_purchases v = 0 then 0
  else (purchasePrices v).sum / ((purchasePrices v).length : ℚ)

/-- `view[view['event']=='purchase']` (lines 80 and 95). -/
def purchaseRecords (v : List Record) : List Record :=
  v.filter (fun r => r.event == Ev.purchase)

/-- The sorted distinct month keys of the purchase rows: pandas
`groupby('month')` emits one group per distinct key, keys sorted
ascending; the subsequent `sort_values('month')` after `to_datetime`
keeps them in the same (calendar = lexical for "YYYY-MM") order. -/
def monthKeys (v : List Record) : List ℕ :=
  (((purchaseRecords v).map Record.month).dedup).mergeSort (fun a b => a ≤ b)

/-- `monthly = view[view['event']=='purchase'].groupby('month').agg(purchases=..., revenue=...)`
then sorted by month (lines 95-98): per distinct month of the purchase
rows, the triple (month, purchase count, revenue sum). -/
def monthly (v : List Record) : List (ℕ × ℕ × ℚ) :=
  (monthKeys v).map (fun m =>
    (m, ((purchaseRecords v).filter (fun r => r.month == m)).length,
        (((purchaseRecords v).filter (fun r => r.month == m)).map Record.price).sum))

/-- `pd.date_range('2024-01-01','2024-12-31')` has 366 days; their month
lengths (2024 is a leap year). -/
def monthLengths2024 : List ℕ := [31, 29, 31, 30, 31, 30, 31, 31, 30, 31, 30, 31]

/-- Helper for `monthOf`: month index of ordinal day `d` against a list
of month lengths. -/
def monthOfAux : List ℕ → ℕ → ℕ
  | [], _ => 0
  | len :: rest, d => if d < len then 0 else monthOfAux rest (d - len) + 1

/-- `df['date'].dt.to_period('M')` (line 25): the calendar-month index
(0 .. 11) of an ordinal day of 2024. -/
def monthOf (d : ℕ) : ℕ := monthOfAux monthLengths2024 d

/-- Model of the numpy global generator state (`np.random`): a single
mutable word, threaded explicitly. The concrete step function below is
a stand-in for the Mersenne Twister: what matters for the embedded
claims is that every draw is a pure function of this state. -/
structure RandState where
  s : ℕ
deriving DecidableEq, Repr

/-- `np.random.seed(seed)` (line 15): replaces the global generator
state with a pure function of the seed, discarding whatever state the
generator held before. -/
def npSeed (seed : ℕ) : RandState := ⟨seed % 2 ^ 32⟩

/-- One raw draw from the generator: a linear-congruential step on the
32-bit state word. -/
def nextR (st : RandState) : ℕ × RandState :=
  let s := (st.s * 1664525 + 1013904223) % 2 ^ 32
  (s, ⟨s⟩)

/-- A draw reduced to the range `[lo, hi)`, as `np.random.randint(lo, hi)`
and `np.random.choice` over a `hi - lo`-element array consume the stream. -/
def randBetween (lo hi : ℕ) (st : RandState) : ℕ × RandState :=
  let (r, st') := nextR st
  (lo + r % (hi - lo), st')

/-- `n` successive draws, threading the generator state left to right
(numpy fills an array of size `n` from the stream). -/
def drawList (draw : RandState → ℕ × RandState) : ℕ → RandState → List ℕ × RandState
  | 0, st => ([], st)
  | n + 1, st =>
    let (x, st') := draw st
    let (xs, st'') := drawList draw n st'
    (x :: xs, st'')

/-- `generate_data(n=30000, seed=42)` (lines 14-26), threading the
global numpy generator state explicitly. It first reseeds the
generator (discarding the ambient state `st0`), then draws the columns
in program order: `user_id` uniform on [1, 2000), `date` uniform over
the 366 days of 2024, `event` with probabilities {0.60, 0.25, 0.15}
(modelled as a draw on [0, 100): < 60 view, < 85 add_to_cart, else
purchase), `price` uniform on [5, 300] rounded to 2 decimals (modelled
as integer hundredths in [500, 30000]); finally the `month` column is
derived from `date`. -/
def generate_data (n seed : ℕ) (st0 : RandState) : List Record :=
  let _ := st0
  let st := npSeed seed
  let (users, st1) := drawList (randBetween 1 2000) n st
  let (dates, st2) := drawList (randBetween 0 366) n st1
  let (evs, st3) := drawList (randBetween 0 100) n st2
  let (prices, _) := drawList (randBetween 500 29501) n st3
  (List.range n).map (fun i =>
    let d := dates.getD i 0
    let e := evs.getD i 0
    { event_id := i
      user_id := users.getD i 0
      date := d
      event := if e < 60 then Ev.view else if e < 85 then Ev.add_to_cart else Ev.purchase
      price := (prices.getD i 0 : ℚ) / 100
      month := monthOf d })

/-- The filtering step of app.py lines 36-48 with Python's fallible
positional indexing made explicit: `st.date_input` may hand back fewer
than two dates, the `len(date_range) != 2` check only displays an error
message without stopping the script, and the mask then evaluates
`date_range[0]` and `date_range[1]` unconditionally; `none` models the
`IndexError` fault of an out-of-bounds access. -/
def filterStep (df : List Record) (events : List Ev) (date_range : List ℕ) :
    Option (List Record) := do
  let s ← date_range[0]?
  let e ← date_range[1]?
  pure (filterView df events s e)

/-! Concrete datasets used to instantiate the theorems. -/

/-- A one-row dataset: a single `view` event by user 1 on day 0. -/
def D0 : List Record := [⟨0, 1, 0, Ev.view, 10, 0⟩]

/-- A three-row dataset: user 1 views and adds to cart, user 2 adds to
cart without ever viewing. -/
def D1 : List Record :=
  [⟨0, 1, 0, Ev.view, 10, 0⟩, ⟨1, 1, 0, Ev.add_to_cart, 10, 0⟩,
   ⟨2, 2, 0, Ev.add_to_cart, 10, 0⟩]

/-- A one-row dataset holding a single purchase of price 10 in month 0. -/
def D2 : List Record := [⟨0, 1, 0, Ev.purchase, 10, 0⟩]

/-- The full event selection (the multiselect default of line 35). -/
def allEv : List Ev := [Ev.view, Ev.add_to_cart, Ev.purchase]

/-! Helper lemmas shared by the claim theorems. -/

/-- An event type has a positive record count in `v` exactly when some
row of `v` carries it — the membership condition of a pandas group. -/
theorem countEvent_pos_iff (v : List Record) (e : Ev) :
    0 < countEvent v e ↔ v.any (fun r => r.event == e) = true := by
  simp [countEvent, List.length_pos, List.filter_eq_nil_iff, List.any_eq_true]

/-- The unique-purchaser count is zero exactly when `v` has no purchase
rows (equivalently, no purchase prices). -/
theorem unique_purchases_eq_zero_iff (v : List Record) :
    unique_purchases v = 0 ↔ purchasePrices v = [] := by
  simp [unique_purchases, usersOf, nunique, purchasePrices,
    List.length_eq_zero, List.dedup_eq_nil, List.map_eq_nil_iff]

/-! Claim theorems. -/

/-- C4: for every dataset, event selection and inclusive date interval,
the filtered view is an order-preserving subsequence of the dataset and
every one of its rows has its event in the selection and its date inside
the interval. -/
theorem filterView_sublist_pred (df : List Record) (events : List Ev) (s e : ℕ) :
    (filterView df events s e).Sublist df ∧
    ∀ r, r ∈ filterView df events s e →
      r.event ∈ events ∧ s ≤ r.date ∧ r.date ≤ e := by
  refine ⟨List.filter_sublist df, ?_⟩
  intro r hr
  have h := (List.mem_filter.mp hr).2
  simpa [mask, and_assoc] using h

/-- Witness for C4: the theorem applied to the concrete dataset `D0` at
its single row, the membership hypothesis discharged by evaluation. -/
theorem filterView_sublist_pred_w :
    (⟨0, 1, 0, Ev.view, 10, 0⟩ : Record).event ∈ allEv ∧
    0 ≤ (⟨0, 1, 0, Ev.view, 10, 0⟩ : Record).date ∧
    (⟨0, 1, 0, Ev.view, 10, 0⟩ : Record).date ≤ 365 :=
  (filterView_sublist_pred D0 allEv 0 365).2 ⟨0, 1, 0, Ev.view, 10, 0⟩ (by decide)

/-- C6: the cart abandonment rate is exactly one minus the add→purchase
conversion rate, for every view. -/
theorem cart_abandonment_complement (v : List Record) :
    cart_abandonment_rate v = 1 - conv_add_to_purchase v := rfl

/-- C7: the average order value is the arithmetic mean of the prices of
the purchase rows, and 0 (not a fault) when the view has no purchase
rows — the source's `if purchases` guard (unique purchasers nonzero)
coincides with the purchase-row list being nonempty. -/
theorem avg_order_value_mean (v : List Record) :
    avg_order_value v =
      if purchasePrices v = [] then 0
      else (purchasePrices v).sum / ((purchasePrices v).length : ℚ) := by
  rw [avg_order_value]
  by_cases h : unique_purchases v = 0
  · rw [if_pos h, if_pos ((unique_purchases_eq_zero_iff v).mp h)]
  · rw [if_neg h, if_neg (fun hp => h ((unique_purchases_eq_zero_iff v).mpr hp))]

/-- C9: the generator is a pure function of the record count and the
seed: `np.random.seed` overwrites the ambient generator state, so two
runs from arbitrary (possibly different) prior states produce identical
datasets, derived month column included. -/
theorem generate_data_deterministic (n seed : ℕ) (st1 st2 : RandState) :
    generate_data n seed st1 = generate_data n seed st2 := rfl

/-- C10: the mask indexes positions 0 and 1 of the date selection
unconditionally, so with fewer than two dates the filtering step faults
(an out-of-bounds access, modelled as `none`) instead of producing any
view, while with exactly two dates it yields the filtered view. -/
theorem filterStep_out_of_bounds (df : List Record) (events : List Ev) (d s e : ℕ) :
    filterStep df events [] = none ∧
    filterStep df events [d] = none ∧
    filterStep df events [s, e] = some (filterView df events s e) :=
  ⟨rfl, rfl, rfl⟩

/-- C1 counterexample: on the one-row dataset `D0` (a single `view`
event) the funnel has a single row; it is not the canonical three-row
enumeration, and the zero-count types `add_to_cart` and `purchase` are
omitted rather than present as explicit zero entries. -/
theorem funnel_fixed_order_cex :
    funnel D0 ≠ funnelSpec D0 ∧
    (Ev.add_to_cart, 0) ∉ funnel D0 ∧ (Ev.purchase, 0) ∉ funnel D0 := by
  decide

/-- C1 (amended): every funnel row pairs an event type with its exact
record count in the view and those counts are positive; an event type
with nonzero count does appear with its count; and the rows follow
pandas' sorted group-key (alphabetical) order — a subsequence of
[add_to_cart, purchase, view] — not the fixed canonical funnel order,
which the source applies only as a chart display ordering. -/
theorem funnel_counts_amended (v : List Record) :
    (∀ p ∈ funnel v, p.2 = countEvent v p.1 ∧ 0 < p.2) ∧
    (∀ e : Ev, 0 < countEvent v e → (e, countEvent v e) ∈ funnel v) ∧
    ((funnel v).map Prod.fst).Sublist eventKeysSorted := by
  refine ⟨?_, ?_, ?_⟩
  · intro p hp
    simp only [funnel, List.mem_map, List.mem_filter] at hp
    obtain ⟨e, ⟨_, hany⟩, rfl⟩ := hp
    exact ⟨rfl, (countEvent_pos_iff v e).mpr hany⟩
  · intro e he
    simp only [funnel, List.mem_map, List.mem_filter]
    exact ⟨e, ⟨by cases e <;> simp [eventKeysSorted],
      (countEvent_pos_iff v e).mp he⟩, rfl⟩
  · have h : (funnel v).map Prod.fst =
        eventKeysSorted.filter (fun e => v.any (fun r => r.event == e)) := by
      simp [funnel, List.map_map, Function.comp_def]
    rw [h]
    exact List.filter_sublist _

/-- Witness for the amended C1: applied to `D0`, whose `view` count is
positive, producing the corresponding funnel row. -/
theorem funnel_counts_amended_w :
    (Ev.view, countEvent D0 Ev.view) ∈ funnel D0 :=
  (funnel_counts_amended D0).2.1 Ev.view (by decide)

/-- C2 counterexample: with the empty event selection on `D0` the view
is empty, yet the cart abandonment rate is 1 (namely `1 - 0`), not 0, so
not every derived aggregate is zero. -/
theorem zeroed_aggregates_cex :
    filterView D0 [] 0 365 = [] ∧
    cart_abandonment_rate (filterView D0 [] 0 365) = 1 ∧
    cart_abandonment_rate (filterView D0 [] 0 365) ≠ 0 := by
  have hv : filterView D0 [] 0 365 = [] := by decide
  have hc : conv_add_to_purchase ([] : List Record) = 0 := rfl
  refine ⟨hv, ?_, ?_⟩ <;> rw [hv, cart_abandonment_rate, hc] <;> norm_num

/-- C2 (amended): an empty event selection, or a date range with
start > end, yields an empty view and zero/empty derived aggregates —
except the cart abandonment rate, which evaluates to `1 - 0 = 1`; no
fault occurs anywhere (every aggregate is total). -/
theorem degenerate_filter_zeroes (df : List Record) (events : List Ev) (s e : ℕ)
    (h : events = [] ∨ e < s) :
    filterView df events s e = [] ∧
    funnel (filterView df events s e) = [] ∧
    unique_views (filterView df events s e) = 0 ∧
    unique_adds (filterView df events s e) = 0 ∧
    unique_purchases (filterView df events s e) = 0 ∧
    conv_view_to_add (filterView df events s e) = 0 ∧
    conv_add_to_purchase (filterView df events s e) = 0 ∧
    cart_abandonment_rate (filterView df events s e) = 1 ∧
    avg_order_value (filterView df events s e) = 0 ∧
    monthly (filterView df events s e) = [] := by
  have hv : filterView df events s e = [] := by
    rw [filterView, List.filter_eq_nil_iff]
    intro r _
    rcases h with h | h
    · subst h
      simp [mask]
    · simp only [mask, Bool.and_eq_true, decide_eq_true_eq, not_and]
      rintro ⟨_, h1⟩ h2
      omega
  rw [hv]
  have hc : conv_add_to_purchase ([] : List Record) = 0 := rfl
  refine ⟨rfl, rfl, rfl, rfl, rfl, rfl, rfl, ?_, rfl, ?_⟩
  · rw [cart_abandonment_rate, hc]
    norm_num
  · simp [monthly, monthKeys, purchaseRecords, List.mergeSort_nil]

/-- Witness for the amended C2: applied with the empty event selection
over `D0`, the disjunctive hypothesis discharged on its left branch. -/
theorem degenerate_filter_zeroes_w :
    filterView D0 [] 0 365 = [] ∧
    funnel (filterView D0 [] 0 365) = [] ∧
    unique_views (filterView D0 [] 0 365) = 0 ∧
    unique_adds (filterView D0 [] 0 365) = 0 ∧
    unique_purchases (filterView D0 [] 0 365) = 0 ∧
    conv_view_to_add (filterView D0 [] 0 365) = 0 ∧
    conv_add_to_purchase (filterView D0 [] 0 365) = 0 ∧
    cart_abandonment_rate (filterView D0 [] 0 365) = 1 ∧
    avg_order_value (filterView D0 [] 0 365) = 0 ∧
    monthly (filterView D0 [] 0 365) = [] :=
  degenerate_filter_zeroes D0 [] 0 365 (Or.inl rfl)

/-- C3 counterexample: on `D1` (user 2 adds to cart without viewing)
with the full filter, the unique-viewer count is positive yet the
view→add conversion rate is 2, outside [0, 1]. -/
theorem conv_view_to_add_range_cex :
    0 < unique_views (filterView D1 allEv 0 365) ∧
    ¬ conv_view_to_add (filterView D1 allEv 0 365) ≤ 1 := by
  have hv : filterView D1 allEv 0 365 = D1 := by decide
  rw [hv]
  refine ⟨by decide, ?_⟩
  rw [conv_view_to_add, show unique_views D1 = 1 from by decide,
    show unique_adds D1 = 2 from by decide]
  norm_num

/-- C3 (amended): when the unique-viewer count is positive the
view→add conversion rate is nonnegative, and it is at most 1 exactly
when the unique-adder count does not exceed the unique-viewer count
(nothing in the code caps it at 1); when the unique-viewer count is
zero the rate is 0. -/
theorem conv_view_to_add_range (v : List Record) :
    (unique_views v = 0 → conv_view_to_add v = 0) ∧
    (0 < unique_views v →
      0 ≤ conv_view_to_add v ∧
      (conv_view_to_add v ≤ 1 ↔ unique_adds v ≤ unique_views v)) := by
  constructor
  · intro h
    simp [conv_view_to_add, h]
  · intro h
    have hne : unique_views v ≠ 0 := Nat.pos_iff_ne_zero.mp h
    have h0 : (0 : ℚ) < (unique_views v : ℚ) := by exact_mod_cast h
    refine ⟨?_, ?_⟩
    · rw [conv_view_to_add, if_neg hne]
      positivity
    · rw [conv_view_to_add, if_neg hne, div_le_one h0]
      exact_mod_cast Iff.rfl

/-- Witness for the amended C3: applied to the filtered view of `D1`,
whose unique-viewer count is positive. -/
theorem conv_view_to_add_range_w :
    0 ≤ conv_view_to_add (filterView D1 allEv 0 365) ∧
    (conv_view_to_add (filterView D1 allEv 0 365) ≤ 1 ↔
      unique_adds (filterView D1 allEv 0 365) ≤
        unique_views (filterView D1 allEv 0 365)) :=
  (conv_view_to_add_range (filterView D1 allEv 0 365)).2 (by decide)

/-- C5: the three unique counters are cardinalities of the sets of
distinct user ids among rows of the matching event type (not raw event
counts), and the two conversion rates are the stated ratios with a 0
fallback when the respective denominator is zero — divisions are total,
no fault is possible. -/
theorem uniques_and_conversions (v : List Record) :
    unique_views v =
      ((v.filter (fun r => r.event == Ev.view)).map Record.user_id).toFinset.card ∧
    unique_adds v =
      ((v.filter (fun r => r.event == Ev.add_to_cart)).map Record.user_id).toFinset.card ∧
    unique_purchases v =
      ((v.filter (fun r => r.event == Ev.purchase)).map Record.user_id).toFinset.card ∧
    conv_view_to_add v =
      (if unique_views v = 0 then 0 else (unique_adds v : ℚ) / (unique_views v : ℚ)) ∧
    conv_add_to_purchase v =
      (if unique_adds v = 0 then 0 else (unique_purchases v : ℚ) / (unique_adds v : ℚ)) := by
  refine ⟨?_, ?_, ?_, rfl, rfl⟩ <;>
    simp [unique_views, unique_adds, unique_purchases, usersOf, nunique,
      List.card_toFinset]

/-- C8: the monthly trend series carries, for each month, the purchase
count and the revenue sum over the purchase rows of the view with that
month key; its month keys are strictly increasing (hence duplicate
free), and a month appears in the series exactly when some purchase row
of the view has that month. -/
theorem monthly_trend_spec (v : List Record) :
    ((monthly v).map (fun t => t.1)).Sorted (· < ·) ∧
    (∀ t ∈ monthly v,
      t.2.1 = ((purchaseRecords v).filter (fun r => r.month == t.1)).length ∧
      t.2.2 = (((purchaseRecords v).filter (fun r => r.month == t.1)).map
        Record.price).sum) ∧
    (∀ m : ℕ, (∃ c rev, (m, c, rev) ∈ monthly v) ↔
      ∃ r ∈ purchaseRecords v, r.month = m) := by
  have hperm :
      List.Perm (monthKeys v) (((purchaseRecords v).map Record.month).dedup) :=
    List.mergeSort_perm _ _
  have hnodup : (monthKeys v).Nodup :=
    hperm.nodup_iff.mpr (List.nodup_dedup _)
  have hsorted : (monthKeys v).Sorted (· ≤ ·) := List.sorted_mergeSort' _
  have hkeys : (monthly v).map (fun t => t.1) = monthKeys v := by
    simp [monthly, List.map_map, Function.comp_def]
  refine ⟨?_, ?_, ?_⟩
  · rw [hkeys]
    exact hsorted.lt_of_le hnodup
  · intro t ht
    simp only [monthly, List.mem_map] at ht
    obtain ⟨m, _, rfl⟩ := ht
    exact ⟨rfl, rfl⟩
  · intro m
    have hmem : m ∈ monthKeys v ↔ ∃ r ∈ purchaseRecords v, r.month = m := by
      rw [hperm.mem_iff, List.mem_dedup, List.mem_map]
    constructor
    · rintro ⟨c, rev, hmem'⟩
      simp only [monthly, List.mem_map] at hmem'
      obtain ⟨m', hm', heq⟩ := hmem'
      have hm : m' = m := congrArg Prod.fst heq
      exact hmem.mp (hm ▸ hm')
    · intro h
      exact ⟨_, _, List.mem_map.mpr ⟨m, hmem.mpr h, rfl⟩⟩

/-- Witness for C8: on the one-purchase dataset `D2`, the single series
row (month 0, 1 purchase, revenue 10) satisfies the per-month count and
revenue equations. -/
theorem monthly_trend_spec_w :
    ((0 : ℕ), (1 : ℕ), (10 : ℚ)).2.1 =
      ((purchaseRecords D2).filter
        (fun r => r.month == ((0 : ℕ), (1 : ℕ), (10 : ℚ)).1)).length ∧
    ((0 : ℕ), (1 : ℕ), (10 : ℚ)).2.2 =
      (((purchaseRecords D2).filter
        (fun r => r.month == ((0 : ℕ), (1 : ℕ), (10 : ℚ)).1)).map
          Record.price).sum :=
  (monthly_trend_spec D2).2.1 (0, 1, 10)
    (by simp [monthly, monthKeys, purchaseRecords, D2, List.dedup_cons_of_not_mem])

end Dashboard
